import Mathlib

/-!
Shallow embedding of the SSHubl session/forward/mount core
(`src/sshubl/ssh_utils.py`, `src/sshubl/project_data.py`,
`src/sshubl/actions.py`) together with theorems settling the frozen
claims about it.

External effects (subprocess invocations, the local filesystem, the
editor window) are made explicit parameters: a subprocess result is an
`Option String` (`none` models `CalledProcessError`), the local
filesystem is a list of existing paths, and thread/worker launches are
recorded as events in an explicit trace.
-/

/-- First index of `a` in a list, if present (used to state ordering of
recorded trace events). -/
def firstIdx {α : Type} [DecidableEq α] (a : α) : List α → Option Nat
  | [] => none
  | b :: bs => if b = a then some 0 else (firstIdx a bs).map (· + 1)

/-- Python `forward_str.rsplit(":", maxsplit=1)`: split on the last
colon; a single part is returned when there is no colon. -/
def rsplitColon (s : String) : String × Option String :=
  let rev := s.data.reverse
  if rev.contains ':' then
    let afterRev := rev.takeWhile (fun c => c ≠ ':')
    let beforeRev := (rev.drop afterRev.length).drop 1
    (String.mk beforeRev.reverse, some (String.mk afterRev.reverse))
  else (s, none)

/-- Surrounding-whitespace strip on a character list (the strip that
Python `int` performs on its string argument). -/
def pyStrip (cs : List Char) : List Char :=
  ((cs.dropWhile Char.isWhitespace).reverse.dropWhile Char.isWhitespace).reverse

/-- Decimal value of a non-empty all-digit character list, `none`
otherwise. -/
def digitsVal (cs : List Char) : Option Nat :=
  if cs ≠ [] ∧ cs.all Char.isDigit then
    some (cs.foldl (fun acc c => 10 * acc + (c.toNat - 48)) 0)
  else none

/-- Python `int(s)` on strings: surrounding whitespace is stripped, an
optional sign is allowed, then decimal digits. Returns `none` where
Python raises `ValueError` (digit-group underscores are not modelled;
no claim exercises them). -/
def parsePyInt (s : String) : Option Int :=
  match pyStrip s.data with
  | '-' :: rest => (digitsVal rest).map (fun n => -(n : Int))
  | '+' :: rest => (digitsVal rest).map (fun n => (n : Int))
  | cs => (digitsVal cs).map (fun n => (n : Int))

/-- `st_utils.pre_parse_forward_target`: separate "host" and "port" of
an OpenSSH forward target; for a UNIX domain socket path (no colon) the
port part is `none`; square-bracket IPv6 enclosures are removed from the
host part (only in the two-part branch, as in the source). -/
def pre_parse_forward_target (forward_str : String) : String × Option String :=
  match rsplitColon forward_str with
  | (_, none) => (forward_str, none)
  | (host, some port) =>
      let hd := host.data
      let host :=
        if hd.head? = some '[' ∧ hd.getLast? = some ']' then
          String.mk (hd.drop 1).dropLast
        else host
      (host, some port)

/-- `ssh_utils.ssh_forward` lines 365-369: `target_1_port` is the first
target's port parsed as an int, `none` when absent or unparsable
(`int(target_1_port_str or "")` under `try/except ValueError`). -/
def target_1_port_of (target_1 : String) : Option Int :=
  match (pre_parse_forward_target target_1).2 with
  | none => none
  | some ps => parsePyInt ps

/-- The forward-rule dict returned by `ssh_utils.ssh_forward` and stored
in `SshSession.forwards` (see the format documented in
`project_data.SshSession._get_all_raw`). -/
structure ForwardRule where
  is_reverse : Bool
  orig_target_1 : String
  orig_target_2 : String
  target_local : String
  target_remote : String
deriving DecidableEq, Repr

/-- `ssh_utils.ssh_forward`: open/close a (reverse) forward.
`subprocess_stdout` is the `check_output` result of the control-channel
request (`none` models `CalledProcessError`); `fs` is the local
filesystem as a list of existing paths (for the UNIX-socket `unlink`).
The remote `rm`/`del` of a reverse UNIX-socket cancel only touches
remote state and is not modelled (no claim depends on it).
Returns the rule dict (or `none` on failure) and the new local
filesystem. -/
def ssh_forward (do_open is_reverse : Bool) (target_1 target_2 : String)
    (subprocess_stdout : Option String) (fs : List String) :
    Option ForwardRule × List String :=
  let target_local := if is_reverse then target_2 else target_1
  let target_remote := if is_reverse then target_1 else target_2
  match subprocess_stdout with
  | none => (none, fs)
  | some stdout =>
      let target_1_host := (pre_parse_forward_target target_1).1
      let target_1_port := target_1_port_of target_1
      let target_remote :=
        if do_open && is_reverse && (target_1_port == some 0) then
          match parsePyInt stdout with
          | some remote_port => target_1_host ++ ":" ++ toString remote_port
          | none => target_remote
        else target_remote
      let fs2 :=
        if !do_open && (target_1_port == none) && !is_reverse then
          fs.filter (fun p => !(p == target_1))
        else fs
      (some { is_reverse := is_reverse, orig_target_1 := target_1,
              orig_target_2 := target_2, target_local := target_local,
              target_remote := target_remote }, fs2)

/-- `project_data.SshSession`: the dataclass holding one managed SSH
session (mounts are the local-path → remote-path dict, kept as an
ordered association list; `is_up = none` is the Python `None`
"reconnection in progress" state). -/
structure SshSession where
  identifier : String
  host : String
  port : Int
  login : String
  mounts : List (String × String)
  forwards : List ForwardRule
  is_interactive : Bool
  is_up : Option Bool
deriving DecidableEq, Repr

/-- The raw dict stored under a session key in project data (the value
produced by `dataclasses.asdict`, documented in
`SshSession._get_all_raw`). -/
structure SessionDict where
  identifier : String
  host : String
  port : Int
  login : String
  mounts : List (String × String)
  forwards : List ForwardRule
  is_interactive : Bool
  is_up : Option Bool
deriving DecidableEq, Repr

/-- The persisted `sessions` map of the project data document, keyed by
session identifier (Python dict: insertion-ordered, unique keys). -/
abbrev Registry := List (String × SessionDict)

/-- Python dict lookup `sessions.get(key)`. -/
def registryLookup (id : String) : Registry → Option SessionDict
  | [] => none
  | (k, v) :: rest => if k = id then some v else registryLookup id rest

/-- Python dict assignment `sessions[key] = value`: replace in place
when the key exists, append otherwise. -/
def registryInsert (id : String) (v : SessionDict) : Registry → Registry
  | [] => [(id, v)]
  | (k, w) :: rest =>
      if k = id then (k, v) :: rest else (k, w) :: registryInsert id v rest

/-- Python dict `sessions.pop(key, None)`. -/
def registryPop (id : String) (pd : Registry) : Registry :=
  pd.filter (fun kv => !(kv.1 == id))

/-- `SshSession.as_dict` (`dataclasses.asdict(self)`). -/
def SshSession.as_dict (s : SshSession) : SessionDict :=
  { identifier := s.identifier, host := s.host, port := s.port,
    login := s.login, mounts := s.mounts, forwards := s.forwards,
    is_interactive := s.is_interactive, is_up := s.is_up }

/-- The `cls(**ssh_session)` reconstruction performed by
`SshSession.get_all_from_project_data`. -/
def SshSession.of_dict (d : SessionDict) : SshSession :=
  { identifier := d.identifier, host := d.host, port := d.port,
    login := d.login, mounts := d.mounts, forwards := d.forwards,
    is_interactive := d.is_interactive, is_up := d.is_up }

/-- `SshSession.is_same_forward`: forwarding-rule comparison on the
fields that matter, `(is_reverse, orig_target_1, orig_target_2)`. -/
def SshSession.is_same_forward (forward_1 forward_2 : ForwardRule) : Bool :=
  (forward_1.is_reverse, forward_1.orig_target_1, forward_1.orig_target_2)
    == (forward_2.is_reverse, forward_2.orig_target_1, forward_2.orig_target_2)

/-- `SshSession.get_from_project_data`: look a session up by identifier
and rebuild the dataclass from its stored dict. -/
def SshSession.get_from_project_data (identifier : String) (pd : Registry) :
    Option SshSession :=
  (registryLookup identifier pd).map SshSession.of_dict

/-- `SshSession.set_in_project_data`: store `as_dict` under
`self.identifier` (read-merge-write of the full map under the registry
lock). -/
def SshSession.set_in_project_data (s : SshSession) (pd : Registry) : Registry :=
  registryInsert s.identifier s.as_dict pd

/-- `SshSession.remove_from_project_data`: pop the identifier key and
write the map back. -/
def SshSession.remove_from_project_data (identifier : String) (pd : Registry) :
    Registry :=
  registryPop identifier pd

/-- `actions.SshForward.run`: issue the forward/cancel request, and on
success store the rule in (open) or filter triple-matching rules out of
(cancel) the session's `forwards` list, under the project-data lock.
A `none` subprocess result (request failure) or an unknown session
leaves the registry untouched. Returns the new registry and local
filesystem. -/
def SshForward.run (identifier : String) (do_open is_reverse : Bool)
    (fwd_target_1 fwd_target_2 : String) (subprocess_stdout : Option String)
    (pd : Registry) (fs : List String) : Registry × List String :=
  let res := ssh_forward do_open is_reverse fwd_target_1 fwd_target_2
    subprocess_stdout fs
  match res.1 with
  | none => (pd, res.2)
  | some forward_rule =>
      match SshSession.get_from_project_data identifier pd with
      | none => (pd, res.2)
      | some s =>
          let s2 :=
            if do_open then
              if forward_rule ∈ s.forwards then s
              else { s with forwards := s.forwards ++ [forward_rule] }
            else
              let kept := s.forwards.filter
                (fun forward => !(SshSession.is_same_forward forward forward_rule))
              { s with forwards := kept }
          (SshSession.set_in_project_data s2 pd, res.2)

/-- Python dict assignment on a session's `mounts`
(`ssh_session.mounts[str(mount_path)] = str(remote_path)`). -/
def mountsInsert (k v : String) : List (String × String) → List (String × String)
  | [] => [(k, v)]
  | (k0, v0) :: rest =>
      if k0 = k then (k0, v) :: rest else (k0, v0) :: mountsInsert k v rest

/-- `ssh_utils.mount_sshfs`: create the local mount directory
(`mkdir(parents=True, exist_ok=True)`), invoke sshfs (`helper_ok` is
whether `check_call` succeeded), and on failure remove the just-created
(empty) directory again before returning `None`. The filesystem is the
flat list of existing directory paths; parent creation and the
`rmdir`-only-removes-empty-directories restriction are not modelled
(the directory the failure branch removes was freshly created, hence
empty). -/
def mount_sshfs (mount_path : String) (helper_ok : Bool) (fs : List String) :
    Option String × List String :=
  let fs1 := if mount_path ∈ fs then fs else fs ++ [mount_path]
  if helper_ok then (some mount_path, fs1)
  else (none, fs1.filter (fun p => !(p == mount_path)))

/-- `actions.SshMountSshfs.run`, `do_mount=True` path (the only path the
claims exercise): mount, and only on success add the folder and persist
the new mounts entry in the session record; on `mount_sshfs` failure the
worker returns without touching the registry. Returns the new registry
and filesystem, plus whether the folder was surfaced to the project
folder list. -/
def SshMountSshfs.run (identifier mount_path remote_path : String)
    (helper_ok : Bool) (pd : Registry) (fs : List String) :
    Registry × List String × Bool :=
  match SshSession.get_from_project_data identifier pd with
  | none => (pd, fs, false)
  | some s =>
      let res := mount_sshfs mount_path helper_ok fs
      match res.1 with
      | none => (pd, res.2, false)
      | some mp =>
          let s2 := { s with mounts := mountsInsert mp remote_path s.mounts }
          (SshSession.set_in_project_data s2 pd, res.2, true)

/-- Outcome of the `pxssh.login` call inside `ssh_utils.ssh_connect`
(`pxsshFailure msg` models `ExceptionPxssh` with `str(exception) = msg`). -/
inductive LoginResult
  | ok
  | pxsshFailure (msg : String)
deriving DecidableEq, Repr

/-- Result of `ssh_utils.ssh_connect`:
`passwordlessConnectionException` models the raised
`PasswordlessConnectionException`, `failure` the `return None` on a
logged generic error, `success` the returned session identifier. -/
inductive ConnectResult
  | success (identifier : String)
  | passwordlessConnectionException
  | failure
deriving DecidableEq, Repr

/-- `ssh_utils.ssh_connect` failure-signalling logic: when `pxssh.login`
raises, the distinct `PasswordlessConnectionException` is raised exactly
when no password was given and the message is "password refused" or
"permission denied"; any other failure returns `None`.
The pexpect scripting itself and UUID generation are external effects
summarised by `login_result` and `identifier`. -/
def ssh_connect (password : Option String) (identifier : String)
    (login_result : LoginResult) : ConnectResult :=
  match login_result with
  | .ok => .success identifier
  | .pxsshFailure msg =>
      if password = none && (msg == "password refused" || msg == "permission denied") then
        .passwordlessConnectionException
      else
        .failure

/-- The command scheduling performed by
`actions.schedule_ssh_connect_password_command`:
`sublime.set_timeout_async` runs `ssh_connect_password` on the window
asynchronously after `delay` (the worker itself returns immediately). -/
structure ScheduledCommand where
  command : String
  args_identifier : Option String
  delay : Nat
  via_set_timeout_async : Bool
deriving DecidableEq, Repr

/-- `actions.schedule_ssh_connect_password_command`. -/
def schedule_ssh_connect_password_command (identifier : Option String)
    (delay : Nat) : ScheduledCommand :=
  { command := "ssh_connect_password", args_identifier := identifier,
    delay := delay, via_set_timeout_async := true }

/-- Observable outcome of one `actions.SshConnect.run` execution:
`scheduled` = the worker left after scheduling the password command,
`connected` = `_on_connection` ran for the identifier,
`failed` = `ssh_connect` returned `None` and nothing else happened. -/
inductive RunOutcome
  | scheduled (cmd : ScheduledCommand)
  | connected (identifier : String)
  | failed
deriving DecidableEq, Repr

/-- `actions.SshConnect.run`: call `ssh_connect`; on
`PasswordlessConnectionException` schedule the `ssh_connect_password`
command (default delay 0) and return; on `None` do nothing further; on
success run `_on_connection`. -/
def SshConnect.run (password : Option String) (identifier : String)
    (login_result : LoginResult) : RunOutcome :=
  match ssh_connect password identifier login_result with
  | .passwordlessConnectionException =>
      .scheduled (schedule_ssh_connect_password_command (some identifier) 0)
  | .failure => .failed
  | .success i => .connected i

/-- Events recorded by one keepalive-loop iteration for one session
(`actions.SshKeepaliveThread.run`, lines 401-442):
`probe` = the `ssh_check_master` call, `launchReconnect` = the
`ssh_connect_interactive` call or `SshConnect(...).start()`,
`setReconnecting` = persisting `is_up = None`,
`setUp` = persisting `is_up = True` for a recovered session. -/
inductive KeepaliveEvent
  | probe (identifier : String)
  | launchReconnect (identifier : String)
  | setReconnecting (identifier : String)
  | setUp (identifier : String)
deriving DecidableEq, Repr

/-- Body of the keepalive loop for one session identifier, run under the
project-data lock (`actions.SshKeepaliveThread.run`): skip (no probe,
no reconnection) when the session is gone or already marked
reconnecting (`is_up is None`); otherwise probe the master
(`master_up` is the `ssh_check_master` result); when it is up, flip a
`Down` session back to `Up`; when it is down, launch a reconnection
and then persist `is_up = None`. Returns the new registry and the
ordered event trace. -/
def SshKeepaliveThread.step (identifier : String) (pd : Registry)
    (master_up : Bool) : Registry × List KeepaliveEvent :=
  match SshSession.get_from_project_data identifier pd with
  | none => (pd, [])
  | some ssh_session =>
      if ssh_session.is_up = none then (pd, [])
      else if master_up then
        if ssh_session.is_up = some false then
          (SshSession.set_in_project_data { ssh_session with is_up := some true } pd,
           [.probe identifier, .setUp identifier])
        else (pd, [.probe identifier])
      else
        (SshSession.set_in_project_data { ssh_session with is_up := none } pd,
         [.probe identifier, .launchReconnect identifier, .setReconnecting identifier])

/-- Events recorded during a disconnect
(`actions.SshDisconnect.run` and `ssh_utils.ssh_disconnect`):
`unmountWaited p` = an unmount worker for mount point `p` was started
and joined before proceeding; `rmMountRootDir` = the best-effort
`rmdir` of the per-session directory under the mounts root;
`requestMasterExit` = the `-O exit` control request;
`warnExitFailed` = the warning logged when that request fails (the
session is then assumed already down, no retry); `eraseSession` = the
removal of the session record from project data. -/
inductive DisconnectEvent
  | unmountWaited (mount_path : String)
  | rmMountRootDir (identifier : String)
  | requestMasterExit (identifier : String)
  | warnExitFailed (identifier : String)
  | eraseSession (identifier : String)
deriving DecidableEq, Repr

/-- `ssh_utils.ssh_disconnect`: best-effort removal of the per-session
mounts directory, then the `-O exit` request; on `CalledProcessError` a
warning is logged and the session is assumed already down. `exit_ok` is
whether the exit request succeeded. -/
def ssh_disconnect (identifier : String) (exit_ok : Bool) :
    List DisconnectEvent :=
  [.rmMountRootDir identifier, .requestMasterExit identifier]
    ++ (if exit_ok then [] else [.warnExitFailed identifier])

/-- `actions.SshDisconnect.run`: unmount (and wait for) every recorded
mount, call `ssh_disconnect`, then erase the session record (when one
was found). Returns the new registry and the ordered event trace. -/
def SshDisconnect.run (identifier : String) (pd : Registry) (exit_ok : Bool) :
    Registry × List DisconnectEvent :=
  match SshSession.get_from_project_data identifier pd with
  | none => (pd, ssh_disconnect identifier exit_ok)
  | some ssh_session =>
      (SshSession.remove_from_project_data identifier pd,
       ssh_session.mounts.map (fun m => DisconnectEvent.unmountWaited m.1)
         ++ ssh_disconnect identifier exit_ok
         ++ [DisconnectEvent.eraseSession identifier])

/-! ## Shared lemmas -/

theorem registryLookup_insert (id : String) (v : SessionDict) :
    ∀ pd : Registry, registryLookup id (registryInsert id v pd) = some v := by
  intro pd
  induction pd with
  | nil => simp [registryInsert, registryLookup]
  | cons kv rest ih =>
      obtain ⟨k, w⟩ := kv
      by_cases h : k = id
      · simp [registryInsert, registryLookup, h]
      · simp [registryInsert, registryLookup, h, ih]

theorem SshSession.of_dict_as_dict (s : SshSession) :
    SshSession.of_dict s.as_dict = s := rfl

theorem SshSession.get_set (s : SshSession) (pd : Registry) :
    SshSession.get_from_project_data s.identifier
      (SshSession.set_in_project_data s pd) = some s := by
  simp [SshSession.get_from_project_data, SshSession.set_in_project_data,
    registryLookup_insert, SshSession.of_dict_as_dict]

theorem SshSession.get_set_of_id (s : SshSession) (pd : Registry) (id : String)
    (h : s.identifier = id) :
    SshSession.get_from_project_data id (SshSession.set_in_project_data s pd)
      = some s := by
  subst h
  exact SshSession.get_set s pd

/-! ## Claims -/

/-- C4: writing any session record (empty mount/forward collections
included) into the registry with `set_in_project_data` and reading it
back with `get_from_project_data` under the same identifier yields a
record field-for-field equal to the one written; in particular the
`as_dict` serialisation is inverted exactly by the `cls(**dict)`
reconstruction. -/
theorem c4_registry_round_trip (s : SshSession) (pd : Registry) :
    SshSession.get_from_project_data s.identifier
        (SshSession.set_in_project_data s pd) = some s
      ∧ SshSession.of_dict s.as_dict = s :=
  ⟨SshSession.get_set s pd, rfl⟩

/-- C3: a forward open or cancel whose control-channel request fails
(`check_output` raised, modelled by a `none` subprocess result) returns
no rule to the caller, and `SshForward.run` leaves both the registry
and the local filesystem unchanged. -/
theorem c3_failed_forward_no_side_effect (identifier : String)
    (do_open is_reverse : Bool) (t1 t2 : String) (pd : Registry)
    (fs : List String) :
    (ssh_forward do_open is_reverse t1 t2 none fs).1 = none
      ∧ SshForward.run identifier do_open is_reverse t1 t2 none pd fs = (pd, fs) := by
  constructor
  · simp [ssh_forward]
  · simp [SshForward.run, ssh_forward]

/-- C8: when the sshfs helper invocation fails, `mount_sshfs` removes
the local mount directory it had just created (that directory no longer
exists afterward), returns `none`, and the `SshMountSshfs.run` worker
persists nothing to the session record (registry unchanged, folder not
surfaced). -/
theorem c8_mount_failure_cleanup (identifier mount_path remote_path : String)
    (pd : Registry) (fs : List String) :
    (mount_sshfs mount_path false fs).1 = none
      ∧ mount_path ∉ (mount_sshfs mount_path false fs).2
      ∧ (SshMountSshfs.run identifier mount_path remote_path false pd fs).1 = pd
      ∧ (SshMountSshfs.run identifier mount_path remote_path false pd fs).2.2 = false := by
  refine ⟨by simp [mount_sshfs], ?_, ?_, ?_⟩
  · simp [mount_sshfs, List.mem_filter]
  · cases hget : SshSession.get_from_project_data identifier pd with
    | none => simp [SshMountSshfs.run, hget]
    | some s => simp [SshMountSshfs.run, hget, mount_sshfs]
  · cases hget : SshSession.get_from_project_data identifier pd with
    | none => simp [SshMountSshfs.run, hget]
    | some s => simp [SshMountSshfs.run, hget, mount_sshfs]

/-- C2: two forward-rule records are the same rule for
cancellation/removal purposes exactly when they agree on
`(is_reverse, orig_target_1, orig_target_2)`; rules differing only in
`target_local`/`target_remote` are the same rule; and after a
successful cancel, `SshForward.run` keeps exactly the stored rules
whose identity triple differs from the cancelled one. -/
theorem c2_rule_identity (f1 f2 : ForwardRule) :
    (SshSession.is_same_forward f1 f2 = true ↔
        (f1.is_reverse = f2.is_reverse ∧ f1.orig_target_1 = f2.orig_target_1
          ∧ f1.orig_target_2 = f2.orig_target_2))
      ∧ (∀ tl tr : String,
          SshSession.is_same_forward f1
            { f1 with target_local := tl, target_remote := tr } = true)
      ∧ ∀ (s : SshSession) (is_rev : Bool) (t1 t2 stdout : String) (fs : List String),
          ∃ s2 : SshSession,
            SshSession.get_from_project_data s.identifier
                (SshForward.run s.identifier false is_rev t1 t2 (some stdout)
                  (SshSession.set_in_project_data s []) fs).1 = some s2
              ∧ ∀ f : ForwardRule, f ∈ s2.forwards ↔
                  (f ∈ s.forwards ∧
                    ¬(f.is_reverse = is_rev ∧ f.orig_target_1 = t1
                        ∧ f.orig_target_2 = t2)) := by
  refine ⟨?_, ?_, ?_⟩
  · simp [SshSession.is_same_forward, Prod.ext_iff]
  · intro tl tr
    simp [SshSession.is_same_forward]
  · intro s is_rev t1 t2 stdout fs
    simp only [SshForward.run, ssh_forward, Bool.false_and, Bool.and_false,
      Bool.false_eq_true, if_false, ite_false, SshSession.get_set]
    refine ⟨_, SshSession.get_set_of_id _ _ _ rfl, ?_⟩
    intro f
    simp [List.mem_filter, SshSession.is_same_forward, Prod.ext_iff, and_assoc]

/-- C1: a successful reverse forward open whose first target requests
port 0 and whose remote reply is an integer string returns a rule whose
`target_remote` is rewritten to the host of `target_1` joined with the
allocated port, while `orig_target_1`/`orig_target_2` remain exactly
the requested strings (and `target_local` stays the second target). -/
theorem c1_dynamic_reverse_resolution (t1 t2 stdout : String)
    (fs : List String) (ps : String) (n : Int)
    (h1 : (pre_parse_forward_target t1).2 = some ps)
    (h2 : parsePyInt ps = some 0)
    (h3 : parsePyInt stdout = some n) :
    (ssh_forward true true t1 t2 (some stdout) fs).1 =
      some { is_reverse := true, orig_target_1 := t1, orig_target_2 := t2,
             target_local := t2,
             target_remote := (pre_parse_forward_target t1).1 ++ ":" ++ toString n } := by
  simp [ssh_forward, target_1_port_of, h1, h2, h3]

/-- C1 witness: the spec's concrete instance,
`target_1="127.0.0.1:0"`, `target_2="[::1]:8888"`, reply `"4242"`. -/
theorem c1_witness :
    (ssh_forward true true "127.0.0.1:0" "[::1]:8888" (some "4242") []).1 =
      some { is_reverse := true, orig_target_1 := "127.0.0.1:0",
             orig_target_2 := "[::1]:8888", target_local := "[::1]:8888",
             target_remote := "127.0.0.1:4242" } := by
  have h := c1_dynamic_reverse_resolution "127.0.0.1:0" "[::1]:8888" "4242"
    [] "0" 4242 (by decide) (by decide) (by decide)
  exact h.trans (by decide)

/-- C9: a successful cancel (`do_open=false`) of a non-reverse forward
whose first target is a UNIX-domain-socket path (its parsed port is
`none`) unlinks the local socket file: afterwards the path is no longer
on disk; the cancel still returns the rule dict. -/
theorem c9_unix_socket_cancel_unlink (t1 t2 stdout : String)
    (fs : List String) (h : target_1_port_of t1 = none) :
    t1 ∉ (ssh_forward false false t1 t2 (some stdout) fs).2
      ∧ (ssh_forward false false t1 t2 (some stdout) fs).1 =
          some { is_reverse := false, orig_target_1 := t1, orig_target_2 := t2,
                 target_local := t1, target_remote := t2 } := by
  constructor
  · simp [ssh_forward, h, List.mem_filter]
  · simp [ssh_forward, h]

/-- C9 witness: cancelling `-L /tmp/forward.sock:127.0.0.1:22` removes
the existing local socket file `/tmp/forward.sock` from disk. -/
theorem c9_witness :
    "/tmp/forward.sock" ∈ ["/tmp/forward.sock", "/tmp/other"]
      ∧ "/tmp/forward.sock" ∉
          (ssh_forward false false "/tmp/forward.sock" "127.0.0.1:22" (some "")
            ["/tmp/forward.sock", "/tmp/other"]).2 :=
  ⟨by decide,
   (c9_unix_socket_cancel_unlink "/tmp/forward.sock" "127.0.0.1:22" ""
      ["/tmp/forward.sock", "/tmp/other"] (by decide)).1⟩

/-- C10: on a successful forward open, `SshForward.run` appends the
returned rule to the session's persisted forwards list exactly when no
existing element equals it on all five fields (`ForwardRule` equality),
not merely on the `(is_reverse, orig_target_1, orig_target_2)` identity
triple. -/
theorem c10_open_append_dedup_full_equality (identifier : String)
    (is_reverse : Bool) (t1 t2 stdout : String) (pd : Registry)
    (fs : List String) (s : SshSession) (rule : ForwardRule)
    (hget : SshSession.get_from_project_data identifier pd = some s)
    (hid : s.identifier = identifier)
    (hfwd : (ssh_forward true is_reverse t1 t2 (some stdout) fs).1 = some rule) :
    SshSession.get_from_project_data identifier
        (SshForward.run identifier true is_reverse t1 t2 (some stdout) pd fs).1
      = some (if rule ∈ s.forwards then s
              else { s with forwards := s.forwards ++ [rule] }) := by
  simp only [SshForward.run, hfwd, hget, eq_self_iff_true, if_true]
  apply SshSession.get_set_of_id
  split <;> exact hid

/-- C10 witness: a second reverse open of the same
`(true, "127.0.0.1:0", "[::1]:8888")` request whose remote allocates
port 4343 instead of 4242 agrees with the stored rule on the identity
triple but differs in `target_remote`, and is appended as a second
entry. -/
theorem c10_witness :
    SshSession.get_from_project_data "sid"
        (SshForward.run "sid" true true "127.0.0.1:0" "[::1]:8888" (some "4343")
          [("sid", { identifier := "sid", host := "example.org", port := 22,
                     login := "user", mounts := [],
                     forwards := [{ is_reverse := true,
                                    orig_target_1 := "127.0.0.1:0",
                                    orig_target_2 := "[::1]:8888",
                                    target_local := "[::1]:8888",
                                    target_remote := "127.0.0.1:4242" }],
                     is_interactive := false, is_up := some true })] []).1
      = some { identifier := "sid", host := "example.org", port := 22,
               login := "user", mounts := [],
               forwards := [{ is_reverse := true,
                              orig_target_1 := "127.0.0.1:0",
                              orig_target_2 := "[::1]:8888",
                              target_local := "[::1]:8888",
                              target_remote := "127.0.0.1:4242" },
                            { is_reverse := true,
                              orig_target_1 := "127.0.0.1:0",
                              orig_target_2 := "[::1]:8888",
                              target_local := "[::1]:8888",
                              target_remote := "127.0.0.1:4343" }],
               is_interactive := false, is_up := some true } := by
  have h := c10_open_append_dedup_full_equality "sid" true "127.0.0.1:0"
    "[::1]:8888" "4343"
    [("sid", { identifier := "sid", host := "example.org", port := 22,
               login := "user", mounts := [],
               forwards := [{ is_reverse := true,
                              orig_target_1 := "127.0.0.1:0",
                              orig_target_2 := "[::1]:8888",
                              target_local := "[::1]:8888",
                              target_remote := "127.0.0.1:4242" }],
               is_interactive := false, is_up := some true })] []
    { identifier := "sid", host := "example.org", port := 22,
      login := "user", mounts := [],
      forwards := [{ is_reverse := true, orig_target_1 := "127.0.0.1:0",
                     orig_target_2 := "[::1]:8888",
                     target_local := "[::1]:8888",
                     target_remote := "127.0.0.1:4242" }],
      is_interactive := false, is_up := some true }
    { is_reverse := true, orig_target_1 := "127.0.0.1:0",
      orig_target_2 := "[::1]:8888", target_local := "[::1]:8888",
      target_remote := "127.0.0.1:4343" }
    (by decide) (by decide) (by decide)
  exact h.trans (by decide)

/-- C6: a non-interactive connection attempt whose authentication fails
with no password supplied raises the distinct
`PasswordlessConnectionException` (not a generic `None` failure), and
`SshConnect.run` then only schedules the credential solicit-and-retry
command through `sublime.set_timeout_async` instead of prompting
inline; with a password supplied, or on a non-authentication failure
message, `ssh_connect` returns the generic `None` failure and the
worker ends without scheduling anything. -/
theorem c6_password_required_signalling (password : Option String)
    (identifier msg : String) :
    (ssh_connect password identifier (LoginResult.pxsshFailure msg)
        = ConnectResult.passwordlessConnectionException
      ↔ (password = none
          ∧ (msg = "password refused" ∨ msg = "permission denied")))
      ∧ (ssh_connect password identifier (LoginResult.pxsshFailure msg)
            = ConnectResult.failure
        ↔ ¬(password = none
              ∧ (msg = "password refused" ∨ msg = "permission denied")))
      ∧ SshConnect.run password identifier (LoginResult.pxsshFailure msg)
          = (if password = none
                ∧ (msg = "password refused" ∨ msg = "permission denied")
             then RunOutcome.scheduled
                (schedule_ssh_connect_password_command (some identifier) 0)
             else RunOutcome.failed)
      ∧ (schedule_ssh_connect_password_command (some identifier) 0).via_set_timeout_async
          = true := by
  by_cases h : password = none ∧ (msg = "password refused" ∨ msg = "permission denied")
  · refine ⟨?_, ?_, ?_, rfl⟩ <;>
      simp [ssh_connect, SshConnect.run, h.1, h.2,
        schedule_ssh_connect_password_command, h]
  · refine ⟨?_, ?_, ?_, rfl⟩ <;>
      · rcases Decidable.not_and_iff_or_not.mp h with h1 | h2
        · simp [ssh_connect, SshConnect.run, h1, h]
        · rcases not_or.mp h2 with ⟨h3, h4⟩
          simp [ssh_connect, SshConnect.run, h3, h4, h]

/-- C5 counterexample: in the reconnection branch of one keepalive
iteration (session up-state stale, master probe failing) the recorded
event order is probe, then the reconnection launch, then the
`is_up = None` (`Reconnecting`) persist — the monitor does not set the
session's liveness to `Reconnecting` before launching the
reconnection, contradicting the claim's final clause. -/
theorem c5_counterexample :
    (SshKeepaliveThread.step "sid"
        [("sid", { identifier := "sid", host := "example.org", port := 22,
                   login := "user", mounts := [], forwards := [],
                   is_interactive := false, is_up := some true })] false).2
      = [KeepaliveEvent.probe "sid", KeepaliveEvent.launchReconnect "sid",
         KeepaliveEvent.setReconnecting "sid"]
    ∧ ¬ ∃ i j : Nat,
        firstIdx (KeepaliveEvent.setReconnecting "sid")
            ((SshKeepaliveThread.step "sid"
              [("sid", { identifier := "sid", host := "example.org", port := 22,
                         login := "user", mounts := [], forwards := [],
                         is_interactive := false, is_up := some true })] false).2)
          = some i
        ∧ firstIdx (KeepaliveEvent.launchReconnect "sid")
            ((SshKeepaliveThread.step "sid"
              [("sid", { identifier := "sid", host := "example.org", port := 22,
                         login := "user", mounts := [], forwards := [],
                         is_interactive := false, is_up := some true })] false).2)
          = some j
        ∧ i < j := by
  refine ⟨by decide, ?_⟩
  rintro ⟨i, j, hi, hj, hij⟩
  have hi2 : some 2 = some i := (by decide :
    firstIdx (KeepaliveEvent.setReconnecting "sid")
      [KeepaliveEvent.probe "sid", KeepaliveEvent.launchReconnect "sid",
       KeepaliveEvent.setReconnecting "sid"] = some 2).symm.trans (by exact hi)
  have hj2 : some 1 = some j := (by decide :
    firstIdx (KeepaliveEvent.launchReconnect "sid")
      [KeepaliveEvent.probe "sid", KeepaliveEvent.launchReconnect "sid",
       KeepaliveEvent.setReconnecting "sid"] = some 1).symm.trans (by exact hj)
  cases hi2
  cases hj2
  omega

/-- C5 (amended): a session whose liveness is `Reconnecting`
(`is_up is None`) is skipped by the keepalive iteration — it is neither
probed nor has a reconnection launched, and the registry is untouched —
so a second concurrent monitor pass cannot re-trigger it; in the
reconnection branch the monitor launches the reconnection and then sets
the session's liveness to `Reconnecting`, within the same lock-held
iteration (not before launching, as originally claimed). -/
theorem c5_amended_keepalive_skip (identifier : String) (pd : Registry)
    (s : SshSession)
    (hget : SshSession.get_from_project_data identifier pd = some s) :
    (s.is_up = none →
      ∀ master_up : Bool,
        SshKeepaliveThread.step identifier pd master_up = (pd, []))
    ∧ (s.is_up ≠ none →
        SshKeepaliveThread.step identifier pd false =
          (SshSession.set_in_project_data { s with is_up := none } pd,
           [KeepaliveEvent.probe identifier,
            KeepaliveEvent.launchReconnect identifier,
            KeepaliveEvent.setReconnecting identifier])) := by
  constructor
  · intro hnone master_up
    simp [SshKeepaliveThread.step, hget, hnone]
  · intro hsome
    simp [SshKeepaliveThread.step, hget, hsome]

/-- C5 witness: a concrete `Reconnecting` session is skipped untouched,
and a concrete stale-up session yields the launch-then-mark trace. -/
theorem c5_witness :
    SshKeepaliveThread.step "sid"
        [("sid", { identifier := "sid", host := "example.org", port := 22,
                   login := "user", mounts := [], forwards := [],
                   is_interactive := false, is_up := none })] true
      = ([("sid", { identifier := "sid", host := "example.org", port := 22,
                    login := "user", mounts := [], forwards := [],
                    is_interactive := false, is_up := none })], []) := by
  have h := (c5_amended_keepalive_skip "sid"
    [("sid", { identifier := "sid", host := "example.org", port := 22,
               login := "user", mounts := [], forwards := [],
               is_interactive := false, is_up := none })]
    { identifier := "sid", host := "example.org", port := 22,
      login := "user", mounts := [], forwards := [],
      is_interactive := false, is_up := none }
    (by decide)).1 (by decide) true
  exact h

/-- C7 counterexample: disconnecting a session with no recorded mounts
records the best-effort removal of the per-session mount-root directory
at index 0 and the control-master exit request at index 1 — the
mount-root directory removal happens before the exit request, not
after it as the claim's "finally" ordering states. -/
theorem c7_counterexample :
    firstIdx (DisconnectEvent.rmMountRootDir "sid")
        ((SshDisconnect.run "sid"
          [("sid", { identifier := "sid", host := "example.org", port := 22,
                     login := "user", mounts := [], forwards := [],
                     is_interactive := false, is_up := some true })] true).2)
      = some 0
    ∧ firstIdx (DisconnectEvent.requestMasterExit "sid")
        ((SshDisconnect.run "sid"
          [("sid", { identifier := "sid", host := "example.org", port := 22,
                     login := "user", mounts := [], forwards := [],
                     is_interactive := false, is_up := some true })] true).2)
      = some 1
    ∧ ¬ ∃ i j : Nat,
        firstIdx (DisconnectEvent.requestMasterExit "sid")
            ((SshDisconnect.run "sid"
              [("sid", { identifier := "sid", host := "example.org", port := 22,
                         login := "user", mounts := [], forwards := [],
                         is_interactive := false, is_up := some true })] true).2)
          = some i
        ∧ firstIdx (DisconnectEvent.rmMountRootDir "sid")
            ((SshDisconnect.run "sid"
              [("sid", { identifier := "sid", host := "example.org", port := 22,
                         login := "user", mounts := [], forwards := [],
                         is_interactive := false, is_up := some true })] true).2)
          = some j
        ∧ i < j := by
  refine ⟨by decide, by decide, ?_⟩
  rintro ⟨i, j, hi, hj, hij⟩
  have hi2 : some 1 = some i := (by decide :
    firstIdx (DisconnectEvent.requestMasterExit "sid")
      ((SshDisconnect.run "sid"
        [("sid", { identifier := "sid", host := "example.org", port := 22,
                   login := "user", mounts := [], forwards := [],
                   is_interactive := false, is_up := some true })] true).2)
      = some 1).symm.trans (by exact hi)
  have hj2 : some 0 = some j := (by decide :
    firstIdx (DisconnectEvent.rmMountRootDir "sid")
      ((SshDisconnect.run "sid"
        [("sid", { identifier := "sid", host := "example.org", port := 22,
                   login := "user", mounts := [], forwards := [],
                   is_interactive := false, is_up := some true })] true).2)
      = some 0).symm.trans (by exact hj)
  cases hi2
  cases hj2
  omega

/-- C7 (amended): `disconnect(id)` first unmounts every recorded mount,
waiting for each unmount before proceeding; then removes the
per-session mount-root directory (best effort); then requests the
control-master to exit exactly once, logging a warning and assuming the
session already down (no retry) when that request fails; and finally
erases the session record from the registry. (The mount-root removal
precedes the exit request, not the claimed converse order.) -/
theorem c7_amended_disconnect_order (identifier : String) (pd : Registry)
    (s : SshSession) (exit_ok : Bool)
    (hget : SshSession.get_from_project_data identifier pd = some s) :
    SshDisconnect.run identifier pd exit_ok =
      (SshSession.remove_from_project_data identifier pd,
       s.mounts.map (fun m => DisconnectEvent.unmountWaited m.1)
         ++ [DisconnectEvent.rmMountRootDir identifier,
             DisconnectEvent.requestMasterExit identifier]
         ++ (if exit_ok then [] else [DisconnectEvent.warnExitFailed identifier])
         ++ [DisconnectEvent.eraseSession identifier]) := by
  simp [SshDisconnect.run, hget, ssh_disconnect]

/-- C7 witness: concrete disconnect of a session with one recorded
mount and a failing exit request. -/
theorem c7_witness :
    SshDisconnect.run "sid"
        [("sid", { identifier := "sid", host := "example.org", port := 22,
                   login := "user", mounts := [("/local/mnt", "/remote/dir")],
                   forwards := [], is_interactive := false,
                   is_up := some true })] false
      = ([],
         [DisconnectEvent.unmountWaited "/local/mnt",
          DisconnectEvent.rmMountRootDir "sid",
          DisconnectEvent.requestMasterExit "sid",
          DisconnectEvent.warnExitFailed "sid",
          DisconnectEvent.eraseSession "sid"]) := by
  have h := c7_amended_disconnect_order "sid"
    [("sid", { identifier := "sid", host := "example.org", port := 22,
               login := "user", mounts := [("/local/mnt", "/remote/dir")],
               forwards := [], is_interactive := false, is_up := some true })]
    { identifier := "sid", host := "example.org", port := 22,
      login := "user", mounts := [("/local/mnt", "/remote/dir")],
      forwards := [], is_interactive := false, is_up := some true }
    false (by decide)
  exact h.trans (by decide)
